import Mathlib

/-!
Verification of the session / peer-connection registry and lifecycle core of
the arcas-io/load-server repository, shallowly embedded from the Rust sources
`src/session.rs`, `src/handlers.rs` and `src/peer_connection.rs`.

Modelling conventions:
- `SystemTime` instants are `Nat` timestamps passed explicitly to every
  operation that calls `SystemTime::now()`.
- `DashMap<String, V>` is an association list `List (String × V)` whose
  `insert` has replace semantics (as `DashMap::insert` does) and whose
  `get` returns the first entry with the key.
- Rust methods taking `&mut self` and returning `Result<()>` are modelled as
  functions `Session → ... → Except ServerError Unit × Session`, returning
  the (possibly unchanged) session next to the result, so that "leaves the
  state unchanged on error" is expressible.
- Handles to external media-engine objects (video source, factory, frame
  producer) are opaque `Nat` identifiers; the external collaborators
  (statistics collector, libwebrtc calls) are parameters of the functions
  that invoke them.
-/

set_option autoImplicit false

namespace LoadServer

/-- Session lifecycle state, from `enum State` in src/session.rs. -/
inductive State where
  | Created
  | Started
  | Stopped
deriving DecidableEq, Repr

/-- Server error variants, as used by the sources (the defining file
src/error.rs is not among the provided sources; the variants and their
payloads are exactly those constructed in src/session.rs, src/handlers.rs
and src/peer_connection.rs). -/
inductive ServerError where
  | InvalidStateError (msg : String)
  | InvalidSessionError (id : String)
  | InvalidPeerConnection (msg : String)
  | CouldNotCreateOffer (msg : String)
  | CouldNotCreateAnswer (msg : String)
  | CouldNotParseSdp (msg : String)
  | CouldNotSetSdp (msg : String)
  | CreatePeerConnectionError (msg : String)
  | CouldNotCreateTrack (msg : String)
  | CouldNotAddTransceiver (msg : String)
deriving DecidableEq, Repr

/-- The registry-owned record for one peer connection, from src/session.rs
(`PeerConnectionManager` there): identity plus an opaque handle to the
external media-engine connection object. -/
structure PeerConnectionManager where
  id : String
  name : String
  webrtc_handle : Nat
deriving DecidableEq, Repr

/-- `PeerConnections = DashMap<String, PeerConnectionManager>`
(src/session.rs line 15), modelled as an association list. -/
abbrev PeerConnections := List (String × PeerConnectionManager)

/-- `DashMap::get`: first entry with the given key. -/
def pcLookup (m : PeerConnections) (id : String) : Option PeerConnectionManager :=
  (List.find? (fun p => p.1 == id) m).map (fun p => p.2)

/-- `DashMap::insert`: inserts the pair, replacing any existing entry with
the same key (the old value is returned by DashMap and discarded by the
caller in src/session.rs). -/
def pcInsert (m : PeerConnections) (id : String) (v : PeerConnectionManager) :
    PeerConnections :=
  (id, v) :: List.filter (fun p => !(p.1 == id)) m

/-- The `Session` struct of src/session.rs. `video_source`,
`peer_connection_factory` and `frame_producer` are opaque handles to
external media-engine objects. -/
structure Session where
  id : String
  name : String
  peer_connections : PeerConnections
  video_source : Nat
  state : State
  start_time : Option Nat
  stop_time : Option Nat
  peer_connection_factory : Nat
  frame_producer : Nat

/-- `Session::new` (src/session.rs lines 52-69), success path: the external
resource constructions (`file_video_source`, factory creation) either fail —
in which case no session exists — or yield handles; the fields of the
session built on success are exactly these. -/
def Session.new (id name : String)
    (video_source frame_producer peer_connection_factory : Nat) : Session :=
  { id := id
    name := name
    peer_connections := []
    video_source := video_source
    state := State.Created
    start_time := none
    stop_time := none
    peer_connection_factory := peer_connection_factory
    frame_producer := frame_producer }

/-- `Session::start` (src/session.rs lines 71-86): fails unless the state is
`Created`; on success sets state to `Started` and `start_time = now()`. -/
def Session.start (s : Session) (now : Nat) : Except ServerError Unit × Session :=
  if s.state ≠ State.Created then
    (Except.error (ServerError.InvalidStateError
      "Only a created session can be started"), s)
  else
    (Except.ok (), { s with state := State.Started, start_time := some now })

/-- `Session::stop` (src/session.rs lines 88-103): fails unless the state is
`Started`; on success sets state to `Stopped` and `stop_time = now()`. -/
def Session.stop (s : Session) (now : Nat) : Except ServerError Unit × Session :=
  if s.state ≠ State.Started then
    (Except.error (ServerError.InvalidStateError
      "Only a started session can be stopped"), s)
  else
    (Except.ok (), { s with state := State.Stopped, stop_time := some now })

/-- `Session::add_peer_connection` (src/session.rs lines 126-142): inserts
the manager under its own id via `DashMap::insert` and returns `Ok(())`
unconditionally. -/
def Session.add_peer_connection (s : Session) (pc : PeerConnectionManager) :
    Except ServerError Unit × Session :=
  (Except.ok (),
   { s with peer_connections := pcInsert s.peer_connections pc.id pc })

/-- `Session::get_peer_connection` (src/session.rs lines 144-156): looks up
the sub-registry, failing with `InvalidPeerConnection` when absent. -/
def Session.get_peer_connection (s : Session) (id : String) :
    Except ServerError PeerConnectionManager :=
  match pcLookup s.peer_connections id with
  | some pc => Except.ok pc
  | none => Except.error (ServerError.InvalidPeerConnection
      ("Peer connection " ++ id ++ " not found"))

/-- Modelled from the spec: the helper `elapsed` lives in src/helpers.rs,
which is not among the provided sources. Per the spec (section 4.2), the
result is the duration between the two instants, `None` whenever
`start_time` is absent, and all durations are non-negative (so no value is
produced from a stop instant earlier than the start instant). -/
def elapsed (start stop : Option Nat) : Option Nat :=
  match start, stop with
  | some s, some e => if s ≤ e then some (e - s) else none
  | _, _ => none

/-- `Session::elapsed_time` (src/session.rs lines 158-164): a pure query on
`&self`; `now` stands for the `SystemTime::now()` sampled in the `Started`
arm. -/
def Session.elapsed_time (s : Session) (now : Nat) : Option Nat :=
  match s.state with
  | State.Created => none
  | State.Started => elapsed s.start_time (some now)
  | State.Stopped => elapsed s.start_time s.stop_time

/-- The process-wide `SessionRegistry`: `DashMap<String, Session>` inside
`Data` (src/data.rs is not among the provided sources; src/handlers.rs and
the `call_session!` macro access it as `.data.sessions.get / get_mut`),
modelled as an association list. -/
abbrev SessionRegistry := List (String × Session)

/-- `sessions.get(id)` on the registry: first entry with the key. -/
def sessionLookup (reg : SessionRegistry) (id : String) : Option Session :=
  (List.find? (fun p => p.1 == id) reg).map (fun p => p.2)

/-- The two-level dispatch path shared by every peer-connection-scoped
handler (src/handlers.rs `create_offer` lines 118-148, and likewise
`create_answer`, `set_local_description`, `set_remote_description`):
look up the session (else `InvalidSessionError(session_id)`), then the peer
connection in that session's own sub-registry (else
`InvalidPeerConnection(peer_connection_id)`), then invoke the operation on
the resolved handle and forward its result. -/
def dispatchPeerConnection {α : Type} (reg : SessionRegistry)
    (session_id peer_connection_id : String)
    (op : PeerConnectionManager → Except ServerError α) : Except ServerError α :=
  match sessionLookup reg session_id with
  | none => Except.error (ServerError.InvalidSessionError session_id)
  | some s =>
    match pcLookup s.peer_connections peer_connection_id with
    | none => Except.error (ServerError.InvalidPeerConnection peer_connection_id)
    | some pc => op pc

/-- `create_offer` (src/handlers.rs lines 118-148) phrased through the
dispatch path: the peer-connection-scoped operation is the media-engine
`create_offer` call on the resolved handle, here a parameter `engine_offer`
indexed by the handle; the handler then wraps an engine failure into
`CouldNotCreateOffer` and an engine success into the SDP response. -/
def create_offer (engine_offer : Nat → Except String String)
    (reg : SessionRegistry) (session_id peer_connection_id : String) :
    Except ServerError String :=
  match dispatchPeerConnection reg session_id peer_connection_id
      (fun pc => Except.ok (engine_offer pc.webrtc_handle)) with
  | Except.error e => Except.error e
  | Except.ok (Except.error e) =>
      Except.error (ServerError.CouldNotCreateOffer e)
  | Except.ok (Except.ok sdp) => Except.ok sdp

/-- Outcome of the external per-peer-connection statistics collector, the
collaborator invoked by the fan-out. -/
abbrev StatsCollector (σ : Type) := PeerConnectionManager → Except String σ

/-- Modelled from the spec: `crate::stats::get_stats` (src/stats.rs) is not
among the provided sources. Per the spec (section 4.4) the fan-out invokes
the external statistics collector for each peer connection currently in the
session's sub-registry, records (logs) per-entry failures and excludes those
entries from the aggregate, and never fails the overall call because an
entry failed — the same tolerate-and-log shape as
`Session::peer_connection_stats` (src/session.rs lines 105-114). -/
def stats_fanout {σ : Type} (collect : StatsCollector σ) (s : Session) :
    List σ :=
  List.filterMap (fun p => (collect p.2).toOption) s.peer_connections

/-- `Session::get_stats` (src/session.rs lines 116-124): forwards the result
of the stats fan-out; with the fan-out spec-modelled as total, the call
returns the aggregate. -/
def Session.get_stats {σ : Type} (collect : StatsCollector σ) (s : Session) :
    Except ServerError (List σ) :=
  Except.ok (stats_fanout collect s)

/-- Observable teardown effect: the cancellation signal sent to a background
frame producer (identified by its opaque handle). -/
inductive TeardownEvent where
  | cancel (frame_producer : Nat)
deriving DecidableEq, Repr

/-- `impl Drop for Session` (src/session.rs lines 167-171): the drop body
issues exactly the single `self.frame_producer.cancel()` signal. -/
def Session.dropSession (s : Session) : List TeardownEvent :=
  [TeardownEvent.cancel s.frame_producer]

/-- Explicit removal of a session from the registry: the entries under the
id are removed and, each removed `Session` value being released, its `Drop`
runs; yields the remaining registry and the emitted teardown events. -/
def removeSession (reg : SessionRegistry) (id : String) :
    SessionRegistry × List TeardownEvent :=
  (List.filter (fun p => !(p.1 == id)) reg,
   (List.filter (fun p => p.1 == id) reg).flatMap (fun p => p.2.dropSession))

/-- Registry/process teardown: every session in the registry is released,
running each `Drop` once. -/
def teardownRegistry (reg : SessionRegistry) : List TeardownEvent :=
  reg.flatMap (fun p => p.2.dropSession)

/-- One entry of the video sender statistics delivered by the collector
callback (`Rs_VideoSenderStats` is an opaque FFI record; only its presence
matters here). -/
structure VideoSenderStats where
  ssrc : Nat
deriving DecidableEq, Repr

/-- `PeerConnection::get_stats` (src/peer_connection.rs lines 99-107): the
callback is handed to the ffi bindings (its own error discarded by
`let _ = ...`), then the first message is awaited; `delivered` is the
outcome of `receiver.recv()` — an error when no message ever arrives (the
sender dropped, e.g. because the collection failed). The code returns
`receiver.recv().unwrap_or_default()`: the message, or the empty vector. -/
def PeerConnection.get_stats
    (delivered : Except String (List VideoSenderStats)) :
    List VideoSenderStats :=
  match delivered with
  | Except.ok stats => stats
  | Except.error _ => []

/-- One mutating or querying call on a session, with the `SystemTime::now()`
instant the call happens at where the operation samples the clock. -/
inductive Op where
  | startOp (t : Nat)
  | stopOp (t : Nat)
  | addPC (pc : PeerConnectionManager)
  | getPC (id : String)
  | elapsedQuery (t : Nat)
deriving DecidableEq, Repr

/-- Effect of one call on the session state (`get_peer_connection` and
`elapsed_time` take `&self` and mutate nothing). -/
def applyOp (s : Session) : Op → Session
  | Op.startOp t => (s.start t).2
  | Op.stopOp t => (s.stop t).2
  | Op.addPC pc => (s.add_peer_connection pc).2
  | Op.getPC _ => s
  | Op.elapsedQuery _ => s

/-- Run a sequence of calls against a session. -/
def runOps (s : Session) : List Op → Session
  | [] => s
  | o :: rest => runOps (applyOp s o) rest

/-- The clock instant an operation samples, when it samples one. -/
def Op.time : Op → Option Nat
  | Op.startOp t => some t
  | Op.stopOp t => some t
  | Op.addPC _ => none
  | Op.getPC _ => none
  | Op.elapsedQuery _ => none

/-- The clock is monotone across successive calls: every sampled instant is
strictly above the given bound and the instants increase along the list. -/
def goodTimes : Nat → List Op → Prop
  | _, [] => True
  | c, o :: rest =>
    match o.time with
    | some t => c < t ∧ goodTimes t rest
    | none => goodTimes c rest

/-- All instants recorded in the session are at most `c`. -/
def TimesBelow (s : Session) (c : Nat) : Prop :=
  (∀ t ∈ s.start_time, t ≤ c) ∧ (∀ t ∈ s.stop_time, t ≤ c)

/-- Reachability invariant of the session state machine: the timestamps
present are exactly those the state's history demands, and a stop instant
strictly follows the start instant. -/
def StateInv (s : Session) : Prop :=
  (s.state = State.Created → s.start_time = none ∧ s.stop_time = none) ∧
  (s.state = State.Started → s.start_time.isSome ∧ s.stop_time = none) ∧
  (s.state = State.Stopped →
    ∃ a b, s.start_time = some a ∧ s.stop_time = some b ∧ a < b)

/-- The predicate of claim C7 as stated: a set stop instant implies a set,
earlier start instant. -/
def StopAfterStart (s : Session) : Prop :=
  s.stop_time.isSome →
    s.start_time.isSome ∧ ∀ a ∈ s.start_time, ∀ b ∈ s.stop_time, a < b

/-! ## Helper lemmas -/

theorem pcLookup_pcInsert_self (m : PeerConnections) (k : String)
    (v : PeerConnectionManager) : pcLookup (pcInsert m k v) k = some v := by
  simp [pcLookup, pcInsert, List.find?_cons_of_pos]

theorem timesBelow_mono {s : Session} {c d : Nat} (h : TimesBelow s c)
    (hcd : c ≤ d) : TimesBelow s d :=
  ⟨fun t ht => le_trans (h.1 t ht) hcd, fun t ht => le_trans (h.2 t ht) hcd⟩

theorem stateInv_stopAfterStart (s : Session) (h : StateInv s) :
    StopAfterStart s := by
  intro hs
  cases hst : s.state with
  | Created => rw [(h.1 hst).2] at hs; simp at hs
  | Started => rw [(h.2.1 hst).2] at hs; simp at hs
  | Stopped =>
    obtain ⟨a, b, ha, hb, hab⟩ := h.2.2 hst
    refine ⟨by rw [ha]; rfl, fun x hx y hy => ?_⟩
    rw [ha] at hx
    rw [hb] at hy
    simp only [Option.mem_def, Option.some_inj] at hx hy
    omega

theorem step_preserves (s : Session) (o : Op) (c : Nat) (hI : StateInv s)
    (hT : TimesBelow s c) (ht : ∀ t ∈ o.time, c < t) :
    StateInv (applyOp s o) ∧ TimesBelow (applyOp s o) (Option.getD o.time c) := by
  cases o with
  | startOp t =>
    have hct : c < t := ht t rfl
    by_cases h : s.state = State.Created
    · have hfields := hI.1 h
      simp only [applyOp, Session.start, h, ne_eq, not_true_eq_false, if_false,
        Op.time, Option.getD]
      refine ⟨⟨by simp, fun _ => ⟨rfl, hfields.2⟩, by simp⟩, ?_, ?_⟩
      · intro u hu
        simp only [Option.mem_def, Option.some_inj] at hu
        omega
      · intro u hu
        rw [hfields.2] at hu
        simp at hu
    · simp only [applyOp, Session.start, h, ne_eq, not_false_eq_true, if_true,
        Op.time, Option.getD]
      exact ⟨hI, timesBelow_mono hT (le_of_lt hct)⟩
  | stopOp t =>
    have hct : c < t := ht t rfl
    by_cases h : s.state = State.Started
    · have hfields := hI.2.1 h
      obtain ⟨a, ha⟩ := Option.isSome_iff_exists.mp hfields.1
      have hac : a ≤ c := hT.1 a ha
      simp only [applyOp, Session.stop, h, ne_eq, not_true_eq_false, if_false,
        Op.time, Option.getD]
      refine ⟨⟨by simp, by simp, fun _ => ⟨a, t, ha, rfl, by omega⟩⟩, ?_, ?_⟩
      · intro u hu
        rw [ha] at hu
        simp only [Option.mem_def, Option.some_inj] at hu
        omega
      · intro u hu
        simp only [Option.mem_def, Option.some_inj] at hu
        omega
    · simp only [applyOp, Session.stop, h, ne_eq, not_false_eq_true, if_true,
        Op.time, Option.getD]
      exact ⟨hI, timesBelow_mono hT (le_of_lt hct)⟩
  | addPC pc => exact ⟨hI, hT⟩
  | getPC id => exact ⟨hI, hT⟩
  | elapsedQuery t => exact ⟨hI, hT⟩

theorem runOps_preserves : ∀ (ops : List Op) (s : Session) (c : Nat),
    StateInv s → TimesBelow s c → goodTimes c ops →
    StateInv (runOps s ops) := by
  intro ops
  induction ops with
  | nil => exact fun s c h _ _ => h
  | cons o rest ih =>
    intro s c hI hT hg
    cases o with
    | startOp t =>
      obtain ⟨hct, hg2⟩ := hg
      have hs := step_preserves s (Op.startOp t) c hI hT
        (fun u hu => by simp only [Op.time, Option.mem_def, Option.some_inj] at hu; omega)
      exact ih (applyOp s (Op.startOp t)) t hs.1 hs.2 hg2
    | stopOp t =>
      obtain ⟨hct, hg2⟩ := hg
      have hs := step_preserves s (Op.stopOp t) c hI hT
        (fun u hu => by simp only [Op.time, Option.mem_def, Option.some_inj] at hu; omega)
      exact ih (applyOp s (Op.stopOp t)) t hs.1 hs.2 hg2
    | addPC pc =>
      have hs := step_preserves s (Op.addPC pc) c hI hT
        (fun u hu => by simp [Op.time] at hu)
      exact ih (applyOp s (Op.addPC pc)) c hs.1 hs.2 hg
    | getPC id =>
      have hs := step_preserves s (Op.getPC id) c hI hT
        (fun u hu => by simp [Op.time] at hu)
      exact ih (applyOp s (Op.getPC id)) c hs.1 hs.2 hg
    | elapsedQuery t =>
      have hs := step_preserves s (Op.elapsedQuery t) c hI hT
        (fun u hu => by simp [Op.time] at hu)
      exact ih (applyOp s (Op.elapsedQuery t)) c hs.1 hs.2 hg

/-! ## Claims -/

/-- C1, counterexample: a session whose sub-registry already holds the key
"a" accepts a second insertion under "a" — `add_peer_connection` returns
`Ok(())` even though the identifier is already present, refuting "succeeds
if and only if the identifier is not already a key". -/
theorem C1_duplicate_insert_succeeds :
    pcLookup [("a", (⟨"a", "first", 10⟩ : PeerConnectionManager))] "a" =
      some ⟨"a", "first", 10⟩ ∧
    (Session.add_peer_connection
      { Session.new "s1" "demo" 0 1 2 with
          peer_connections := [("a", ⟨"a", "first", 10⟩)] }
      ⟨"a", "second", 11⟩).1 = Except.ok () := by
  exact ⟨by decide, rfl⟩

/-- C1 (amended): `Session::add_peer_connection` always succeeds, whether or
not the handle's identifier is already a key of the sub-registry; when it is
already present the new entry replaces the existing one, so two insertions
with the same identifier both succeed. -/
theorem C1_add_peer_connection_always_succeeds (s : Session)
    (pc : PeerConnectionManager) :
    (s.add_peer_connection pc).1 = Except.ok () ∧
    pcLookup (s.add_peer_connection pc).2.peer_connections pc.id = some pc := by
  exact ⟨rfl, pcLookup_pcInsert_self s.peer_connections pc.id pc⟩

/-- C2: `Session::start` succeeds exactly when the state is `Created`, and
then sets the state to `Started` and `start_time = now`; from any other
state it returns `InvalidStateError` and leaves the session unchanged; in
particular after a successful start every subsequent start fails and the
state remains `Started`. -/
theorem C2_start_state_machine (s : Session) (now later : Nat) :
    (s.state = State.Created →
      s.start now =
        (Except.ok (),
         { s with state := State.Started, start_time := some now })) ∧
    (s.state ≠ State.Created →
      s.start now =
        (Except.error (ServerError.InvalidStateError
          "Only a created session can be started"), s)) ∧
    (s.state = State.Created →
      ((s.start now).2.start later).1 =
        Except.error (ServerError.InvalidStateError
          "Only a created session can be started") ∧
      ((s.start now).2.start later).2 = (s.start now).2 ∧
      ((s.start now).2.start later).2.state = State.Started) := by
  refine ⟨?_, ?_, ?_⟩ <;> intro h <;> simp [Session.start, h]

/-- C2 witness: a fresh session starts successfully at instant 1, and a
second start at instant 2 fails with `InvalidStateError`. -/
theorem C2_start_state_machine_witness :
    (Session.new "s" "n" 0 1 2).start 1 =
      (Except.ok (),
       { Session.new "s" "n" 0 1 2 with
           state := State.Started, start_time := some 1 }) ∧
    (((Session.new "s" "n" 0 1 2).start 1).2.start 2).1 =
      Except.error (ServerError.InvalidStateError
        "Only a created session can be started") ∧
    ({ Session.new "s" "n" 0 1 2 with state := State.Stopped }.start 3) =
      (Except.error (ServerError.InvalidStateError
        "Only a created session can be started"),
       { Session.new "s" "n" 0 1 2 with state := State.Stopped }) :=
  ⟨(C2_start_state_machine (Session.new "s" "n" 0 1 2) 1 2).1 rfl,
   ((C2_start_state_machine (Session.new "s" "n" 0 1 2) 1 2).2.2 rfl).1,
   (C2_start_state_machine
     { Session.new "s" "n" 0 1 2 with state := State.Stopped } 3 4).2.1
     (by decide)⟩

/-- C3: `Session::stop` succeeds exactly when the state is `Started`, and
then sets the state to `Stopped` and `stop_time = now`; from any other state
it returns `InvalidStateError` and leaves the session unchanged; in
particular stopping a session still in `Created` fails and the state remains
`Created`. -/
theorem C3_stop_state_machine (s : Session) (now : Nat) :
    (s.state = State.Started →
      s.stop now =
        (Except.ok (),
         { s with state := State.Stopped, stop_time := some now })) ∧
    (s.state ≠ State.Started →
      s.stop now =
        (Except.error (ServerError.InvalidStateError
          "Only a started session can be stopped"), s)) ∧
    (s.state = State.Created →
      (s.stop now).1 =
        Except.error (ServerError.InvalidStateError
          "Only a started session can be stopped") ∧
      (s.stop now).2.state = State.Created) := by
  refine ⟨?_, ?_, ?_⟩ <;> intro h <;> simp [Session.stop, h]

/-- C3 witness: stopping a fresh (never started) session fails with
`InvalidStateError` and the state remains `Created`; stopping a started
session succeeds. -/
theorem C3_stop_state_machine_witness :
    ((Session.new "s" "n" 0 1 2).stop 5).1 =
      Except.error (ServerError.InvalidStateError
        "Only a started session can be stopped") ∧
    ((Session.new "s" "n" 0 1 2).stop 5).2.state = State.Created ∧
    ({ Session.new "s" "n" 0 1 2 with
        state := State.Started, start_time := some 1 }.stop 5).1 =
      Except.ok () ∧
    ((Session.new "s" "n" 0 1 2).stop 5) =
      (Except.error (ServerError.InvalidStateError
        "Only a started session can be stopped"),
       Session.new "s" "n" 0 1 2) := by
  refine ⟨?_, ?_, ?_, ?_⟩
  · exact ((C3_stop_state_machine (Session.new "s" "n" 0 1 2) 5).2.2 rfl).1
  · exact ((C3_stop_state_machine (Session.new "s" "n" 0 1 2) 5).2.2 rfl).2
  · rw [(C3_stop_state_machine
      { Session.new "s" "n" 0 1 2 with
          state := State.Started, start_time := some 1 } 5).1 rfl]
  · exact (C3_stop_state_machine (Session.new "s" "n" 0 1 2) 5).2.1 (by decide)

/-- C4: the two-level dispatch path for peer-connection-scoped operations —
an absent session yields `InvalidSessionError(session_id)` whatever the
peer-connection identifier; with the session present, an absent peer
connection in that session's own sub-registry yields
`InvalidPeerConnection(peer_connection_id)`; with both present the
operation is invoked on the resolved handle and its result or error is
returned unchanged. -/
theorem C4_dispatch_two_level {α : Type} (reg : SessionRegistry)
    (sid pcid : String) (op : PeerConnectionManager → Except ServerError α) :
    (sessionLookup reg sid = none →
      dispatchPeerConnection reg sid pcid op =
        Except.error (ServerError.InvalidSessionError sid)) ∧
    (∀ s, sessionLookup reg sid = some s →
      pcLookup s.peer_connections pcid = none →
      dispatchPeerConnection reg sid pcid op =
        Except.error (ServerError.InvalidPeerConnection pcid)) ∧
    (∀ s pc, sessionLookup reg sid = some s →
      pcLookup s.peer_connections pcid = some pc →
      dispatchPeerConnection reg sid pcid op = op pc) := by
  refine ⟨fun h => ?_, fun s h h2 => ?_, fun s pc h h2 => ?_⟩
  · simp [dispatchPeerConnection, h]
  · simp [dispatchPeerConnection, h, h2]
  · simp [dispatchPeerConnection, h, h2]

/-- C4 witness: on a concrete one-session registry, dispatch to a missing
session fails with `InvalidSessionError`, dispatch to a present session but
missing peer connection fails with `InvalidPeerConnection`, and dispatch to
a present pair runs the operation on the resolved handle. -/
theorem C4_dispatch_two_level_witness :
    dispatchPeerConnection
      [("s1", { Session.new "s1" "demo" 0 1 2 with
          peer_connections := [("p1", ⟨"p1", "pc one", 7⟩)] })]
      "zz" "p1" (fun pc => Except.ok pc.name) =
      Except.error (ServerError.InvalidSessionError "zz") ∧
    dispatchPeerConnection
      [("s1", { Session.new "s1" "demo" 0 1 2 with
          peer_connections := [("p1", ⟨"p1", "pc one", 7⟩)] })]
      "s1" "qq" (fun pc => Except.ok pc.name) =
      Except.error (ServerError.InvalidPeerConnection "qq") ∧
    dispatchPeerConnection
      [("s1", { Session.new "s1" "demo" 0 1 2 with
          peer_connections := [("p1", ⟨"p1", "pc one", 7⟩)] })]
      "s1" "p1" (fun pc => Except.ok pc.name) = Except.ok "pc one" :=
  ⟨(C4_dispatch_two_level _ "zz" "p1" _).1 rfl,
   (C4_dispatch_two_level _ "s1" "qq" _).2.1 _ rfl rfl,
   (C4_dispatch_two_level _ "s1" "p1" _).2.2 _ ⟨"p1", "pc one", 7⟩ rfl rfl⟩

/-- C5: `elapsed_time` is a pure query (its embedding returns only a value
and no updated session, mirroring `&self`), and its value is determined by
the state: `none` in `Created`; in `Started` the duration from `start_time`
to the `now` of the call (so recomputed per call); in `Stopped` the duration
from `start_time` to `stop_time`, independent of the instant of the call;
whenever `start_time` is absent it is `none` in every state; and every
returned duration is non-negative. -/
theorem C5_elapsed_time_by_state (s : Session) (now n1 n2 : Nat) :
    (s.state = State.Created → s.elapsed_time now = none) ∧
    (s.state = State.Started → ∀ t, s.start_time = some t → t ≤ now →
      s.elapsed_time now = some (now - t)) ∧
    (s.state = State.Stopped → ∀ t u, s.start_time = some t →
      s.stop_time = some u → t ≤ u → s.elapsed_time now = some (u - t)) ∧
    (s.state = State.Stopped → s.elapsed_time n1 = s.elapsed_time n2) ∧
    (s.start_time = none → s.elapsed_time now = none) ∧
    (∀ d, s.elapsed_time now = some d → 0 ≤ d) := by
  refine ⟨fun h => ?_, fun h t ht hle => ?_, fun h t u ht hu hle => ?_,
    fun h => ?_, fun h => ?_, fun d _ => Nat.zero_le d⟩
  · simp [Session.elapsed_time, h]
  · simp [Session.elapsed_time, elapsed, h, ht, hle]
  · simp [Session.elapsed_time, elapsed, h, ht, hu, hle]
  · simp [Session.elapsed_time, h]
  · cases hs : s.state <;> simp [Session.elapsed_time, elapsed, hs, h]

/-- C5 witness: concrete sessions in each state — a fresh session yields
`none`; a session started at 3 queried at 10 yields 7; a session started at
3 and stopped at 10 yields 7 at any query instant; a `Started` session with
no `start_time` yields `none`. -/
theorem C5_elapsed_time_by_state_witness :
    (Session.new "s" "n" 0 1 2).elapsed_time 10 = none ∧
    ({ Session.new "s" "n" 0 1 2 with
        state := State.Started, start_time := some 3 }.elapsed_time 10 =
      some 7) ∧
    ({ Session.new "s" "n" 0 1 2 with
        state := State.Stopped, start_time := some 3,
        stop_time := some 10 }.elapsed_time 55 = some 7) ∧
    ({ Session.new "s" "n" 0 1 2 with
        state := State.Stopped, start_time := some 3,
        stop_time := some 10 }.elapsed_time 1 =
      { Session.new "s" "n" 0 1 2 with
        state := State.Stopped, start_time := some 3,
        stop_time := some 10 }.elapsed_time 2) ∧
    ({ Session.new "s" "n" 0 1 2 with
        state := State.Started }.elapsed_time 10 = none) :=
  ⟨(C5_elapsed_time_by_state (Session.new "s" "n" 0 1 2) 10 0 0).1 rfl,
   (C5_elapsed_time_by_state
     { Session.new "s" "n" 0 1 2 with
         state := State.Started, start_time := some 3 } 10 0 0).2.1 rfl 3 rfl
     (by decide),
   (C5_elapsed_time_by_state
     { Session.new "s" "n" 0 1 2 with
         state := State.Stopped, start_time := some 3,
         stop_time := some 10 } 55 0 0).2.2.1 rfl 3 10 rfl rfl (by decide),
   (C5_elapsed_time_by_state
     { Session.new "s" "n" 0 1 2 with
         state := State.Stopped, start_time := some 3,
         stop_time := some 10 } 0 1 2).2.2.2.1 rfl,
   (C5_elapsed_time_by_state
     { Session.new "s" "n" 0 1 2 with
         state := State.Started } 10 0 0).2.2.2.2.1 rfl⟩

/-- C6: from a `Created` session, after a successful `start` at `t1` and
successful `stop` at `t2` (the clock having advanced, `t1 ≤ t2`),
`elapsed_time` equals exactly `stop_time - start_time = t2 - t1`, and any
two calls in the `Stopped` state return the identical value. -/
theorem C6_elapsed_time_stopped_fixed (s : Session) (t1 t2 n n1 n2 : Nat)
    (hc : s.state = State.Created) (h12 : t1 ≤ t2) :
    (s.start t1).1 = Except.ok () ∧
    ((s.start t1).2.stop t2).1 = Except.ok () ∧
    ((s.start t1).2.stop t2).2.start_time = some t1 ∧
    ((s.start t1).2.stop t2).2.stop_time = some t2 ∧
    ((s.start t1).2.stop t2).2.elapsed_time n = some (t2 - t1) ∧
    ((s.start t1).2.stop t2).2.elapsed_time n1 =
      ((s.start t1).2.stop t2).2.elapsed_time n2 := by
  refine ⟨?_, ?_, ?_, ?_, ?_, ?_⟩ <;>
    simp [Session.start, Session.stop, Session.elapsed_time, elapsed, hc, h12]

/-- C6 witness: a fresh session started at 3 and stopped at 10 reports
`elapsed_time = some 7` at query instant 99, and queries at instants 1 and 2
agree. -/
theorem C6_elapsed_time_stopped_fixed_witness :
    (((Session.new "s" "n" 0 1 2).start 3).2.stop 10).2.elapsed_time 99 =
      some 7 ∧
    (((Session.new "s" "n" 0 1 2).start 3).2.stop 10).2.elapsed_time 1 =
      (((Session.new "s" "n" 0 1 2).start 3).2.stop 10).2.elapsed_time 2 :=
  ⟨(C6_elapsed_time_stopped_fixed (Session.new "s" "n" 0 1 2) 3 10 99 1 2 rfl
      (by decide)).2.2.2.2.1,
   (C6_elapsed_time_stopped_fixed (Session.new "s" "n" 0 1 2) 3 10 99 1 2 rfl
      (by decide)).2.2.2.2.2⟩

/-- C7: a session fresh from construction has `state = Created`,
`start_time = none`, `stop_time = none` and satisfies the stop-after-start
predicate; and the predicate — a set `stop_time` implies a set, strictly
earlier `start_time` — still holds after any sequence of `start`, `stop`,
`add_peer_connection`, `get_peer_connection` and `elapsed_time` calls whose
sampled clock instants increase monotonically. -/
theorem C7_stop_after_start_invariant (id name : String) (vs fp pcf : Nat)
    (ops : List Op) (c : Nat) (hg : goodTimes c ops) :
    (Session.new id name vs fp pcf).state = State.Created ∧
    (Session.new id name vs fp pcf).start_time = none ∧
    (Session.new id name vs fp pcf).stop_time = none ∧
    StopAfterStart (Session.new id name vs fp pcf) ∧
    StopAfterStart (runOps (Session.new id name vs fp pcf) ops) := by
  have hI : StateInv (Session.new id name vs fp pcf) := by
    refine ⟨fun _ => ⟨rfl, rfl⟩, fun h => ?_, fun h => ?_⟩ <;>
      simp [Session.new] at h
  have hT : TimesBelow (Session.new id name vs fp pcf) c := by
    constructor <;> intro t ht <;> simp [Session.new] at ht
  refine ⟨rfl, rfl, rfl, fun h => ?_,
    stateInv_stopAfterStart _ (runOps_preserves ops _ c hI hT hg)⟩
  simp [Session.new] at h

/-- C7 witness: running `start` at instant 1, a peer-connection insertion,
`stop` at instant 2, then queries, on a fresh session — the resulting
session still satisfies the stop-after-start predicate, and the fresh
session had `Created` state and empty timestamps. -/
theorem C7_stop_after_start_invariant_witness :
    (Session.new "s" "n" 0 1 2).state = State.Created ∧
    (Session.new "s" "n" 0 1 2).start_time = none ∧
    (Session.new "s" "n" 0 1 2).stop_time = none ∧
    StopAfterStart (Session.new "s" "n" 0 1 2) ∧
    StopAfterStart (runOps (Session.new "s" "n" 0 1 2)
      [Op.startOp 1, Op.addPC ⟨"p", "q", 3⟩, Op.stopOp 2,
       Op.getPC "p", Op.elapsedQuery 4]) :=
  C7_stop_after_start_invariant "s" "n" 0 1 2
    [Op.startOp 1, Op.addPC ⟨"p", "q", 3⟩, Op.stopOp 2,
     Op.getPC "p", Op.elapsedQuery 4] 0
    ⟨by decide, by decide, trivial⟩

theorem length_filterMap_add_countP {α β : Type} (f : α → Option β)
    (l : List α) :
    (l.filterMap f).length + l.countP (fun a => (f a).isNone) = l.length := by
  induction l with
  | nil => rfl
  | cons a t ih =>
    cases h : f a <;>
      simp [List.filterMap_cons, List.countP_cons, h] <;> omega

theorem filter_key_single {β : Type} (l : List (String × β)) (k : String)
    (v : β) (hmem : (k, v) ∈ l) (hnodup : (l.map Prod.fst).Nodup) :
    List.filter (fun p => p.1 == k) l = [(k, v)] := by
  induction l with
  | nil => cases hmem
  | cons a t ih =>
    simp only [List.map_cons, List.nodup_cons] at hnodup
    rcases List.mem_cons.mp hmem with heq | hm
    · subst heq
      have hnil : List.filter (fun p => p.1 == k) t = [] := by
        rw [List.filter_eq_nil_iff]
        intro p hp hpk
        have hp1 : p.1 = k := by simpa using hpk
        have hmap : p.1 ∈ t.map Prod.fst := List.mem_map_of_mem Prod.fst hp
        exact hnodup.1 (hp1 ▸ hmap)
      simp [List.filter_cons, hnil]
    · have hak : ¬((fun p => p.1 == k) a = true) := by
        intro h
        have ha1 : a.1 = k := by simpa using h
        have : k ∈ t.map Prod.fst := List.mem_map_of_mem Prod.fst hm
        exact hnodup.1 (ha1 ▸ this)
      simp only [List.filter_cons, if_neg hak]
      exact ih hm hnodup.2

theorem flatMap_singleton_eq_map {α β : Type} (f : α → β) (l : List α) :
    l.flatMap (fun a => [f a]) = l.map f := by
  induction l with
  | nil => rfl
  | cons a t ih => simp only [List.flatMap_cons, List.map_cons,
      List.singleton_append, ih]

/-- C8: the per-session stats fan-out never surfaces a per-entry failure as
a top-level error — `get_stats` returns `Ok` of the aggregate for every
collector outcome; a session with zero peer connections yields the empty
aggregate with no error; and the aggregate holds exactly the entries whose
collection succeeded, so when exactly one of the M entries fails the
aggregate has M − 1 entries. -/
theorem C8_get_stats_fan_out {σ : Type} (collect : StatsCollector σ)
    (s : Session) :
    s.get_stats collect = Except.ok (stats_fanout collect s) ∧
    (s.peer_connections = [] → s.get_stats collect = Except.ok []) ∧
    (stats_fanout collect s).length +
      List.countP (fun p => ((collect p.2).toOption).isNone)
        s.peer_connections = s.peer_connections.length ∧
    (List.countP (fun p => ((collect p.2).toOption).isNone)
        s.peer_connections = 1 →
      (stats_fanout collect s).length + 1 = s.peer_connections.length) := by
  have hlen := length_filterMap_add_countP
    (fun p => (collect p.2).toOption) s.peer_connections
  refine ⟨rfl, fun h => ?_, hlen, fun h1 => ?_⟩
  · simp [Session.get_stats, stats_fanout, h]
  · rw [h1] at hlen
    exact hlen

/-- C8 witness: on a session with three peer connections whose collector
fails exactly on the middle one, `get_stats` returns `Ok` of the two
surviving entries; on a session with no peer connections it returns the
empty aggregate. -/
theorem C8_get_stats_fan_out_witness :
    Session.get_stats
      (fun pc => if pc.id == "bad" then Except.error "boom"
        else Except.ok pc.name)
      { Session.new "s" "n" 0 1 2 with
          peer_connections :=
            [("a", ⟨"a", "n1", 0⟩), ("bad", ⟨"bad", "n2", 1⟩),
             ("c", ⟨"c", "n3", 2⟩)] } = Except.ok ["n1", "n3"] ∧
    (stats_fanout
      (fun pc => if pc.id == "bad" then Except.error "boom"
        else Except.ok pc.name)
      { Session.new "s" "n" 0 1 2 with
          peer_connections :=
            [("a", ⟨"a", "n1", 0⟩), ("bad", ⟨"bad", "n2", 1⟩),
             ("c", ⟨"c", "n3", 2⟩)] }).length + 1 = 3 ∧
    Session.get_stats
      (fun pc => if pc.id == "bad" then Except.error "boom"
        else Except.ok pc.name)
      (Session.new "s2" "m" 0 1 2) = Except.ok [] := by
  refine ⟨?_, ?_, ?_⟩
  · rw [(C8_get_stats_fan_out
      (fun pc => if pc.id == "bad" then Except.error "boom"
        else Except.ok pc.name)
      { Session.new "s" "n" 0 1 2 with
          peer_connections :=
            [("a", ⟨"a", "n1", 0⟩), ("bad", ⟨"bad", "n2", 1⟩),
             ("c", ⟨"c", "n3", 2⟩)] }).1]
    rfl
  · exact (C8_get_stats_fan_out
      (fun pc => if pc.id == "bad" then Except.error "boom"
        else Except.ok pc.name)
      { Session.new "s" "n" 0 1 2 with
          peer_connections :=
            [("a", ⟨"a", "n1", 0⟩), ("bad", ⟨"bad", "n2", 1⟩),
             ("c", ⟨"c", "n3", 2⟩)] }).2.2.2 (by decide)
  · exact (C8_get_stats_fan_out
      (fun pc => if pc.id == "bad" then Except.error "boom"
        else Except.ok pc.name)
      (Session.new "s2" "m" 0 1 2)).2.1 rfl

/-- C9: destroying a session cancels its background frame producer exactly
once — explicit removal of a session from the registry emits precisely the
one `cancel` of that session's frame producer (its `Drop` body), and
registry/process teardown emits exactly one `cancel` per registered
session, so no destruction path skips or repeats the signal. -/
theorem C9_teardown_cancels_once (reg : SessionRegistry) (id : String)
    (s : Session) (hmem : (id, s) ∈ reg)
    (hnodup : (reg.map Prod.fst).Nodup) :
    (removeSession reg id).2 = [TeardownEvent.cancel s.frame_producer] ∧
    List.count (TeardownEvent.cancel s.frame_producer)
      (removeSession reg id).2 = 1 ∧
    teardownRegistry reg =
      reg.map (fun p => TeardownEvent.cancel p.2.frame_producer) := by
  have hrm : (removeSession reg id).2 =
      [TeardownEvent.cancel s.frame_producer] := by
    show (List.filter (fun p => p.1 == id) reg).flatMap
      (fun p => p.2.dropSession) = _
    rw [filter_key_single reg id s hmem hnodup]
    rfl
  refine ⟨hrm, ?_, ?_⟩
  · rw [hrm]
    simp
  · exact flatMap_singleton_eq_map
      (fun p => TeardownEvent.cancel p.2.frame_producer) reg

/-- C9 witness: in a two-session registry, removing "s1" emits exactly the
single cancel of its frame producer (handle 10), and tearing down the whole
registry emits one cancel per session. -/
theorem C9_teardown_cancels_once_witness :
    (removeSession
      [("s1", Session.new "s1" "a" 0 10 1), ("s2", Session.new "s2" "b" 0 20 1)]
      "s1").2 = [TeardownEvent.cancel 10] ∧
    List.count (TeardownEvent.cancel 10)
      (removeSession
        [("s1", Session.new "s1" "a" 0 10 1),
         ("s2", Session.new "s2" "b" 0 20 1)] "s1").2 = 1 ∧
    teardownRegistry
      [("s1", Session.new "s1" "a" 0 10 1),
       ("s2", Session.new "s2" "b" 0 20 1)] =
      [TeardownEvent.cancel 10, TeardownEvent.cancel 20] := by
  have h := C9_teardown_cancels_once
    [("s1", Session.new "s1" "a" 0 10 1), ("s2", Session.new "s2" "b" 0 20 1)]
    "s1" (Session.new "s1" "a" 0 10 1)
    (List.mem_cons_self _ _) (by decide)
  exact ⟨h.1, h.2.1, h.2.2⟩

/-- C10: `PeerConnection::get_stats` never returns an error — its result
type is the plain vector of sender stats; when the callback delivery fails
(no message ever arrives) it returns the empty vector, which is exactly
what it returns for a successful delivery of no stats, so the two cases are
indistinguishable to the caller. -/
theorem C10_get_stats_never_fails :
    (∀ e, PeerConnection.get_stats (Except.error e) = []) ∧
    (∀ l, PeerConnection.get_stats (Except.ok l) = l) ∧
    (∀ e, PeerConnection.get_stats (Except.error e) =
      PeerConnection.get_stats (Except.ok [])) :=
  ⟨fun _ => rfl, fun _ => rfl, fun _ => rfl⟩

end LoadServer
